import Mathlib

/-!
Shallow embedding of the conversation extraction/deletion engine of
DevCleaner (`src-tauri/src/conversation.rs`) and proofs about it.

Modelling conventions:
* `serde_json::Value` is embedded as the inductive `Json`; objects are
  association lists (serde's map collapses duplicate keys at parse time,
  so the values we reason about carry distinct field names).
* `serde_json::from_str` is not re-implemented; functions that parse a
  string take an explicit parse oracle `p : String → Option Json`
  (with `none` = parse failure).  All theorems hold for every oracle.
* `serde_json::to_string(..).len()` (the serialized size of an item) is
  likewise passed as an explicit `sizeOf : Json → Nat`; the concrete
  `serLen` below implements the exact compact-serialization length for
  ASCII escape-free values and is used in concrete evaluations.
* Machine integers (`u64`, `usize`) are `Nat`; `i64` is `Int` with
  Rust's truncating division modelled by `Int.tdiv`.
* Strings are Lean `String` (in this toolchain a wrapper of `List Char`);
  the byte-level loops of the Rust source act on ASCII data, where byte
  positions and character positions coincide.
-/

namespace DevCleaner

/-- Embedded `serde_json::Value`. -/
inductive Json where
  | null
  | bool (b : Bool)
  | num (n : Int)
  | str (s : String)
  | arr (elems : List Json)
  | obj (fields : List (String × Json))

/-- Embeds `Value::get(key)` — field lookup, `None` on non-objects. -/
def Json.get (v : Json) (key : String) : Option Json :=
  match v with
  | .obj fields => (fields.find? (fun f => f.1 = key)).map (·.2)
  | _ => none

/-- Embeds `Value::as_array()`. -/
def Json.asArray (v : Json) : Option (List Json) :=
  match v with
  | .arr xs => some xs
  | _ => none

/-- Embeds `Value::as_str()`. -/
def Json.asStr (v : Json) : Option String :=
  match v with
  | .str s => some s
  | _ => none

/-- Embeds `Value::as_i64()`. -/
def Json.asI64 (v : Json) : Option Int :=
  match v with
  | .num n => some n
  | _ => none

/-- Embeds `Value::is_object()`. -/
def Json.isObject (v : Json) : Bool :=
  match v with
  | .obj _ => true
  | _ => false

/-- Embeds `Value::as_object()`. -/
def Json.asObject (v : Json) : Option (List (String × Json)) :=
  match v with
  | .obj fields => some fields
  | _ => none

mutual
/-- Length of `serde_json::to_string(v)` for ASCII values whose strings
need no escaping (the fragment used in all concrete inputs below).
The total is order-independent, so serde's key-sorted maps give the
same length as our association lists. -/
def serLen : Json → Nat
  | .null => 4
  | .bool b => if b then 4 else 5
  | .num n => (toString n).length
  | .str s => s.length + 2
  | .arr xs => 2 + serLenList xs
  | .obj fs => 2 + serLenObj fs

def serLenList : List Json → Nat
  | [] => 0
  | [x] => serLen x
  | x :: y :: rest => serLen x + 1 + serLenList (y :: rest)

def serLenObj : List (String × Json) → Nat
  | [] => 0
  | [f] => f.1.length + 3 + serLen f.2
  | f :: g :: rest => f.1.length + 3 + serLen f.2 + 1 + serLenObj (g :: rest)
end

-- ── Record model (struct ConversationInfo) ──

/-- Embeds `struct ConversationInfo`. -/
structure ConversationInfo where
  id : String
  title : String
  source_db : String
  source_key : String
  message_count : Nat
  size_bytes : Nat
  last_modified : Option Int
deriving DecidableEq, Repr

/-- Embeds `struct ConversationMessage`. -/
structure ConversationMessage where
  role : String
  content : String
deriving DecidableEq, Repr

/-- Embeds `struct ConversationContent`. -/
structure ConversationContent where
  title : String
  messages : List ConversationMessage
deriving DecidableEq, Repr

-- ── Character-list string helpers (kernel-computable) ──

/-- First index of `pat` as a sublist of `text` (Rust `str::find`). -/
def subIdx? (pat : List Char) : List Char → Option Nat
  | [] => if pat = [] then some 0 else none
  | c :: t => if pat.isPrefixOf (c :: t) then some 0 else (subIdx? pat t).map (· + 1)

/-- Embeds `str::contains` for a substring pattern. -/
def strContains (s pat : String) : Bool :=
  (subIdx? pat.data s.data).isSome

/-- Embeds `str::starts_with`. -/
def strStarts (s pat : String) : Bool :=
  pat.data.isPrefixOf s.data

/-- Embeds `str::ends_with`. -/
def strEnds (s pat : String) : Bool :=
  pat.data.isSuffixOf s.data

/-- Non-overlapping occurrence count, fuelled (Rust `str::matches(..).count()`). -/
def countMatchesFuel (pat : List Char) : Nat → List Char → Nat
  | 0, _ => 0
  | _, [] => 0
  | fuel + 1, c :: t =>
    if pat.isPrefixOf (c :: t) then 1 + countMatchesFuel pat fuel ((c :: t).drop pat.length)
    else countMatchesFuel pat fuel t

/-- Rust `text.matches(pat).count()` (leftmost, non-overlapping). -/
def countMatches (pat text : List Char) : Nat :=
  if pat = [] then 0 else countMatchesFuel pat text.length text

-- ── Key patterns (conversation.rs lines 36-101) ──

def CHAT_DATA_KEYS : List String :=
  ["workbench.panel.aichat.view.aichat.chatdata",
   "workbench.panel.chat.view.chatView.chatdata",
   "aiChat.chatdata",
   "chat.data",
   "cascade.chatdata",
   "cascade.conversations",
   "composer.composerData",
   "interactive.sessions"]

def ITEM_TABLE_LIKE : List String :=
  ["composerData:%",
   "cascade.%",
   "chat.%",
   "aichat.%",
   "aiChat.%",
   "copilot.%",
   "trae.%",
   "marscode.%",
   "kiro.%",
   "memento/icube-ai-agent-storage",
   "memento/interactive-session%",
   "jetskiStateSync.agentManagerInitState",
   "antigravityUnifiedStateSync.trajectorySummaries"]

def DISCOVERY_LIKE : List String :=
  ["%chatdata%", "%chatData%", "%conversation%", "%Conversation%"]

def IGNORED_KEYS : List String :=
  ["chat.participantNameRegistry",
   "chat.ChatSessionStore.index",
   "chat.workspaceTransfer",
   "chat.customModes",
   "chat.setupContext",
   "composer.planRegistry"]

/-- Embeds `fn is_ignored_key`. -/
def isIgnoredKey (key : String) : Bool :=
  IGNORED_KEYS.contains key
    || strStarts key "workbench.panel.composerChatViewPane."
    || strStarts key "windsurf.cascadeViewContainerId."
    || strStarts key "workbench.panel.icube."
    || strStarts key "workbench.panel.chat"
    || strStarts key "workbench.panel.chatSidebar"
    || strStarts key "workbench.panel.chatEditing"
    || strStarts key "workbench.view.trae."
    || strContains key "AI.agent.model"
    || strContains key "AI.agent.modeList"
    || strContains key "sessionRelation:"
    || strStarts key "currentAgentData_"
    || strStarts key "icube_session_agent_map"
    || strStarts key "icube-ai-agent-storage-input-history"
    || strStarts key "chatHistoryNeedToBeMigrated"
    || strStarts key "hasAutoNewSession"
    || strEnds key ".hidden"
    || strEnds key ".state"

def MAX_FULL_READ : Nat := 50000000
def PREVIEW_LEN : Nat := 8000

-- ── Generic conversation parser (fn parse_chat_value and helpers) ──

/-- The `.or_else` chain over candidate field names used throughout
`try_parse_conversation_item`: first *present* field wins (even when it
is not of the expected type). -/
def firstField (item : Json) : List String → Option Json
  | [] => none
  | n :: ns =>
    match item.get n with
    | some v => some v
    | none => firstField item ns

/-- Title extraction of `try_parse_conversation_item` (lines 224-231). -/
def titleOfItem (item : Json) : String :=
  ((firstField item ["chatTitle", "title", "name", "subject", "description"]).bind
    Json.asStr).getD ""

/-- Message-count extraction of `try_parse_conversation_item` (lines 233-242). -/
def msgCountOfItem (item : Json) : Nat :=
  (((firstField item
      ["bubbles", "messages", "conversation", "turns", "exchanges", "entries", "requests"]).bind
    Json.asArray).map List.length).getD 0

/-- Item-id extraction of `try_parse_conversation_item` (lines 244-250). -/
def itemIdOfItem (item : Json) : String :=
  ((firstField item ["id", "chatId", "composerId", "conversationId"]).bind
    Json.asStr).getD ""

/-- Embeds `fn try_parse_conversation_item` (lines 219-271).  `sizeOf` stands for
`serde_json::to_string(item).map(|s| s.len()).unwrap_or(0)`. -/
def tryParseConversationItem (sizeOf : Json → Nat) (item : Json)
    (db_path key : String) (idx : Nat) (modified : Option Int) :
    Option ConversationInfo :=
  if item.isObject = false then none else
  let title := titleOfItem item
  let msg_count := msgCountOfItem item
  let item_id := itemIdOfItem item
  let size := sizeOf item
  if size < 50 && (title = "") && (msg_count = 0) then none
  else if (msg_count = 0) && (title = "") then none
  else some
    { id := if item_id = "" then db_path ++ ":" ++ key ++ ":item_" ++ toString idx
            else db_path ++ ":" ++ key ++ ":" ++ item_id
      title := if title = "" then "Chat " ++ toString (idx + 1) else title
      source_db := db_path
      source_key := key
      message_count := msg_count
      size_bytes := size
      last_modified := modified }

/-- One enumerated pass of `try_parse_conversation_item` over an array. -/
def parseItems (sizeOf : Json → Nat) (arr : List Json) (db_path key : String)
    (modified : Option Int) : List ConversationInfo :=
  arr.enum.filterMap (fun e => tryParseConversationItem sizeOf e.2 db_path key e.1 modified)

/-- Matcher 1 of `parse_chat_value`: array under field `tabs` (lines 166-173). -/
def tabsRecords (sizeOf : Json → Nat) (parsed : Json) (db_path key : String)
    (modified : Option Int) : List ConversationInfo :=
  match (parsed.get "tabs").bind Json.asArray with
  | some tabs => parseItems sizeOf tabs db_path key modified
  | none => []

/-- Matcher 2 of `parse_chat_value`: array under field `allComposers`
(lines 175-182); in the source this matcher runs unconditionally, it is
NOT guarded by `results.is_empty()`. -/
def composersRecords (sizeOf : Json → Nat) (parsed : Json) (db_path key : String)
    (modified : Option Int) : List ConversationInfo :=
  match (parsed.get "allComposers").bind Json.asArray with
  | some comps => parseItems sizeOf comps db_path key modified
  | none => []

/-- Matcher 3 of `parse_chat_value`: the value itself is a top-level array. -/
def topArrayRecords (sizeOf : Json → Nat) (parsed : Json) (db_path key : String)
    (modified : Option Int) : List ConversationInfo :=
  match parsed.asArray with
  | some arr => parseItems sizeOf arr db_path key modified
  | none => []

def WRAPPER_KEYS : List String :=
  ["conversations", "chats", "history", "data", "items", "threads", "sessions"]

/-- Matcher 4 of `parse_chat_value`: the wrapper-key loop with its
break-on-first-nonempty (lines 196-207). -/
def wrapperRecords (sizeOf : Json → Nat) (parsed : Json) (db_path key : String)
    (modified : Option Int) : List String → List ConversationInfo
  | [] => []
  | w :: ws =>
    match (parsed.get w).bind Json.asArray with
    | some arr =>
      match parseItems sizeOf arr db_path key modified with
      | [] => wrapperRecords sizeOf parsed db_path key modified ws
      | r => r
    | none => wrapperRecords sizeOf parsed db_path key modified ws

/-- Matcher 5 of `parse_chat_value`: single conversation object (lines 210-214). -/
def singleObjectRecords (sizeOf : Json → Nat) (parsed : Json) (db_path key : String)
    (modified : Option Int) : List ConversationInfo :=
  if parsed.isObject then (tryParseConversationItem sizeOf parsed db_path key 0 modified).toList
  else []

/-- Embeds `fn parse_chat_value` on an already-parsed value (lines 159-217).
Matchers 1 and 2 always run and their results are concatenated; each of
matchers 3, 4, 5 runs only while the accumulated result is empty. -/
def parseChatValue (sizeOf : Json → Nat) (parsed : Json) (db_path key : String)
    (modified : Option Int) : List ConversationInfo :=
  match tabsRecords sizeOf parsed db_path key modified
      ++ composersRecords sizeOf parsed db_path key modified with
  | [] =>
    match topArrayRecords sizeOf parsed db_path key modified with
    | [] =>
      match wrapperRecords sizeOf parsed db_path key modified WRAPPER_KEYS with
      | [] => singleObjectRecords sizeOf parsed db_path key modified
      | r => r
    | r => r
  | r => r

/-- Embeds `fn parse_chat_value` on raw text: `serde_json::from_str` failure
(oracle returns `none`) yields no records. -/
def parseChatValueStr (p : String → Option Json) (sizeOf : Json → Nat)
    (json_str db_path key : String) (modified : Option Int) : List ConversationInfo :=
  match p json_str with
  | some parsed => parseChatValue sizeOf parsed db_path key modified
  | none => []

-- ── Text-fallback extraction (fn extract_title_from_text, lines 416-440) ──

/-- The scanning loop of `extract_title_from_text`: number of characters
before the first unescaped quote, with a backslash always consuming two
positions (so the count can overshoot the end by one, exactly like the
Rust `end` counter; the Rust byte slice `remaining[..end]` would panic
in that overshoot case, which we model as taking the whole rest). -/
def spanScan : List Char → Nat
  | [] => 0
  | '\\' :: [] => 2
  | '\\' :: _ :: rest => 2 + spanScan rest
  | '"' :: _ => 0
  | _ :: rest => 1 + spanScan rest

/-- One prefix attempt of `extract_title_from_text`: find the prefix,
scan the quoted span after it, succeed only when `0 < end < 200`. -/
def tryTitleAt (pat : List Char) (text : List Char) : Option (List Char) :=
  match subIdx? pat text with
  | some start =>
    let remaining := text.drop (start + pat.length)
    let e := spanScan remaining
    if 0 < e && e < 200 then some (remaining.take e) else none
  | none => none

def TITLE_PATTERNS : List (List Char) :=
  ["\"chatTitle\":\"".data, "\"chatTitle\": \"".data,
   "\"name\":\"".data, "\"name\": \"".data,
   "\"title\":\"".data, "\"title\": \"".data]

/-- Embeds `fn extract_title_from_text` (lines 416-434): the six literal prefixes
are tried in the source order `chatTitle`, `name`, `title`. -/
def extractTitleFromText (text : List Char) : String :=
  go TITLE_PATTERNS
where
  go : List (List Char) → String
    | [] => ""
    | pat :: pats =>
      match tryTitleAt pat text with
      | some span => ⟨span⟩
      | none => go pats

/-- Embeds `fn count_messages_from_text` (lines 436-440). -/
def countMessagesFromText (text : List Char) : Nat :=
  max (countMatches "\"role\"".data text) (countMatches "\"type\":\"user\"".data text)

-- ── fn extract_readable_strings / clean_key_title ──

/-- Embeds `fn extract_readable_strings` (lines 383-400): maximal printable-ASCII
runs of length ≥ `min_len`. -/
def extractReadableStrings (data : List Char) (min_len : Nat) : List String :=
  go data []
where
  go : List Char → List Char → List String
    | [], current =>
      if min_len ≤ current.length then [⟨current.reverse⟩] else []
    | b :: rest, current =>
      if 0x20 ≤ b.toNat && b.toNat < 0x7F then go rest (b :: current)
      else if min_len ≤ current.length then ⟨current.reverse⟩ :: go rest []
      else go rest []

/-- Fuelled single-pattern replacement (Rust `str::replace`). -/
def replaceFuel (pat subst : List Char) : Nat → List Char → List Char
  | 0, s => s
  | _, [] => []
  | fuel + 1, c :: t =>
    if pat ≠ [] && pat.isPrefixOf (c :: t) then
      subst ++ replaceFuel pat subst fuel ((c :: t).drop pat.length)
    else c :: replaceFuel pat subst fuel t

/-- Rust `str::replace`. -/
def strReplace (s pat subst : String) : String :=
  ⟨replaceFuel pat.data subst.data s.data.length s.data⟩

/-- Embeds `fn clean_key_title` (lines 403-414). -/
def cleanKeyTitle (key : String) : String :=
  let stripped := if strStarts key "memento/" then key.drop "memento/".length else key
  let cleaned := strReplace (strReplace (strReplace stripped
      "icube-ai-agent-storage" "Trae AI Sessions")
      "interactive-session-view-copilot" "Copilot Edits")
      "interactive-session" "Copilot Chat"
  if strStarts cleaned "composerData:" then
    let uuid := cleaned.drop "composerData:".length
    "Composer " ++ uuid.take (min 8 uuid.length)
  else cleaned

-- ── Store adapter model ──

/-- One embedded SQLite database: the two known tables, each either
absent (`none`) or a list of `key ↦ value` rows in rowid order.  Values
are modelled as text (the engine's queries read them as TEXT). -/
structure Store where
  itemTable : Option (List (String × String))
  cursorDiskKV : Option (List (String × String))
deriving DecidableEq

/-- Embeds `fn query_value_size`: `SELECT length(value) ... WHERE key = ?`,
with SQL errors (absent table) and missing rows both collapsing to 0
via `unwrap_or(0)`. -/
def queryValueSize (table : Option (List (String × String))) (key : String) : Nat :=
  match table with
  | some rows => ((rows.find? (fun r => r.1 = key)).map (fun r => r.2.length)).getD 0
  | none => 0

/-- Embeds `fn query_value_full`: `SELECT value ... WHERE key = ?` as `Option`. -/
def queryValueFull (table : Option (List (String × String))) (key : String) : Option String :=
  (table.bind (fun rows => rows.find? (fun r => r.1 = key))).map (fun r => r.2)

/-- SQLite `LIKE`, fuelled: `%` matches any run, `_` any one character,
comparison is ASCII case-insensitive.  The fuel `pattern.length +
text.length + 1` strictly bounds the recursion. -/
def likeFuel : Nat → List Char → List Char → Bool
  | 0, _, _ => false
  | _ + 1, [], s => s = []
  | fuel + 1, '%' :: ps, s =>
    likeFuel fuel ps s ||
      (match s with
       | [] => false
       | _ :: t => likeFuel fuel ('%' :: ps) t)
  | fuel + 1, '_' :: ps, s =>
    (match s with
     | [] => false
     | _ :: t => likeFuel fuel ps t)
  | fuel + 1, pc :: ps, s =>
    (match s with
     | [] => false
     | c :: t => (pc.toLower = c.toLower) && likeFuel fuel ps t)

/-- SQLite `key LIKE pattern`. -/
def likeMatch (pattern key : String) : Bool :=
  likeFuel (pattern.length + key.length + 1) pattern.data key.data

/-- Embeds `struct KeyEntry`. -/
structure KeyEntry where
  key : String
  preview : String
  size : Nat
deriving DecidableEq

/-- Embeds `fn scan_keys_preview`: keys matching a LIKE pattern with a bounded
`substr(value, 1, 8000)` preview and the full length. -/
def scanKeysPreview (table : Option (List (String × String))) (pattern : String) :
    List KeyEntry :=
  match table with
  | some rows =>
    (rows.filter (fun r => likeMatch pattern r.1)).map
      (fun r => { key := r.1, preview := r.2.take PREVIEW_LEN, size := r.2.length })
  | none => []

-- ── Special-format preview handlers ──

/-- Embeds `fn extract_interactive_session` (lines 311-354). -/
def extractInteractiveSession (p : String → Option Json) (entry : KeyEntry)
    (db_path : String) (modified : Option Int) : Option ConversationInfo :=
  match (p entry.preview).bind (fun parsed => (parsed.get "history").bind Json.asObject) with
  | none => none
  | some history =>
    let step := fun (acc : Nat × String) (f : String × Json) =>
      match f.2.asArray with
      | some arr =>
        let total := acc.1 + arr.length
        let first_text :=
          if acc.2 = "" then
            match arr.head? with
            | some first =>
              match (first.get "text").bind Json.asStr with
              | some t => ⟨t.data.take 80⟩
              | none => acc.2
            | none => acc.2
          else acc.2
        (total, first_text)
      | none => acc
    let r := history.foldl step (0, "")
    if r.1 = 0 then none
    else
      let label := if strContains entry.key "view-copilot" then "Copilot Edits" else "Copilot Chat"
      let title := if r.2 = "" then label else label ++ ": " ++ r.2
      some
        { id := db_path ++ ":" ++ entry.key
          title := title
          source_db := db_path
          source_key := entry.key
          message_count := r.1
          size_bytes := entry.size
          last_modified := modified }

/-- Embeds `fn extract_antigravity_protobuf` (lines 358-380). -/
def extractAntigravityProtobuf (entry : KeyEntry) (db_path : String)
    (modified : Option Int) : Option ConversationInfo :=
  let titles := extractReadableStrings entry.preview.data 10
  if titles.isEmpty then none
  else
    let goodChar := fun (c : Char) =>
      c.isAlphanum || c.isWhitespace || ".,;:!?-_'\"()".data.contains c
    let title :=
      match titles.find? (fun s => 10 ≤ s.length && s.data.all goodChar) with
      | some s => s
      | none => "Antigravity Session"
    some
      { id := db_path ++ ":" ++ entry.key
        title := title
        source_db := db_path
        source_key := entry.key
        message_count := 0
        size_bytes := entry.size
        last_modified := modified }

/-- Embeds `fn extract_from_preview` (lines 273-307). -/
def extractFromPreview (p : String → Option Json) (sizeOf : Json → Nat)
    (entry : KeyEntry) (db_path : String) (modified : Option Int) :
    Option ConversationInfo :=
  if strStarts entry.key "memento/interactive-session" then
    extractInteractiveSession p entry db_path modified
  else if strStarts entry.key "jetskiStateSync." || strStarts entry.key "antigravityUnifiedStateSync." then
    extractAntigravityProtobuf entry db_path modified
  else
    match parseChatValueStr p sizeOf entry.preview db_path entry.key modified with
    | conv :: _ => some conv
    | [] =>
      let title := extractTitleFromText entry.preview.data
      let msg_count := countMessagesFromText entry.preview.data
      if title = "" && entry.size < 100 then none
      else some
        { id := db_path ++ ":" ++ entry.key
          title := if title = "" then cleanKeyTitle entry.key else title
          source_db := db_path
          source_key := entry.key
          message_count := msg_count
          size_bytes := entry.size
          last_modified := modified }

-- ── Cursor cursorDiskKV extraction ──

/-- The `name`/`subtitle` lookup of `parse_cursor_composer_data`:
`.and_then(as_str).filter(|s| !s.is_empty())`. -/
def nonEmptyStrField (parsed : Json) (k : String) : Option String :=
  match (parsed.get k).bind Json.asStr with
  | some s => if s = "" then none else some s
  | none => none

/-- Embeds `fn parse_cursor_composer_data` (lines 615-658). -/
def parseCursorComposerData (p : String → Option Json) (json_str db_path key : String)
    (modified : Option Int) : Option ConversationInfo :=
  match p json_str with
  | none => none
  | some parsed =>
    if parsed.isObject = false then none else
    let composer_id := ((parsed.get "composerId").bind Json.asStr).getD ""
    let title :=
      ((nonEmptyStrField parsed "name").orElse
        (fun _ => nonEmptyStrField parsed "subtitle")).getD ""
    let msg_count := (((parsed.get "fullConversationHeadersOnly").bind Json.asArray).map
      List.length).getD 0
    let size := json_str.length
    if title = "" && msg_count = 0 then none
    else
      let created_at := ((parsed.get "createdAt").bind Json.asI64).map
        (fun ms => Int.tdiv ms 1000)
      some
        { id := db_path ++ ":" ++ key ++ ":" ++ (if composer_id = "" then key else composer_id)
          title := if title = "" then composer_id else title
          source_db := db_path
          source_key := key
          message_count := msg_count
          size_bytes := size
          last_modified := created_at.orElse (fun _ => modified) }

/-- Rust `key.splitn(3, ':')`. -/
def splitn3 (s : String) : List String :=
  match s.data.splitOn ':' with
  | [] => [s]
  | [a] => [⟨a⟩]
  | [a, b] => [⟨a⟩, ⟨b⟩]
  | a :: b :: rest => [⟨a⟩, ⟨b⟩, ⟨(rest.map (fun r => ':' :: r)).flatten.drop 1⟩]

/-- Embeds `fn query_bubble_sizes_by_composer` (lines 593-612): total size of
`bubbleId:{composerId}:{bubbleId}` rows grouped by composerId, as an
association list. -/
def queryBubbleSizesByComposer (kvRows : List (String × String)) :
    List (String × Nat) :=
  (kvRows.filter (fun r => likeMatch "bubbleId:%" r.1)).foldl
    (fun acc r =>
      let parts := splitn3 r.1
      if 2 ≤ parts.length then
        let cid := (parts.get? 1).getD ""
        if acc.any (fun e => e.1 = cid) then
          acc.map (fun e => if e.1 = cid then (e.1, e.2 + r.2.length) else e)
        else acc ++ [(cid, r.2.length)]
      else acc)
    []

/-- Embeds `fn extract_cursor_disk_kv` (lines 552-590). -/
def extractCursorDiskKv (p : String → Option Json) (kvRows : List (String × String))
    (db_str : String) (modified : Option Int) : List ConversationInfo :=
  let bubble_sizes := queryBubbleSizesByComposer kvRows
  let candidates := kvRows.filter (fun r => likeMatch "composerData:%" r.1 && 50 < r.2.length)
  candidates.filterMap (fun r =>
    let composer_id := (p r.2).bind (fun v => (v.get "composerId").bind Json.asStr)
    match parseCursorComposerData p r.2 db_str r.1 modified with
    | some conv =>
      match composer_id with
      | some cid =>
        match (bubble_sizes.find? (fun e => e.1 = cid)).map (fun e => e.2) with
        | some bubble_size => some { conv with size_bytes := conv.size_bytes + bubble_size }
        | none => some conv
      | none => some conv
    | none => none)

-- ── fn extract_from_db (lines 456-546) ──

/-- The per-key body of the aggregate loop (section 1 of `extract_from_db`,
lines 476-495): size-gated full read of one exact `CHAT_DATA_KEYS` key. -/
def aggKeyRecords (p : String → Option Json) (sizeOf : Json → Nat)
    (itRows : List (String × String)) (db_str : String) (modified : Option Int)
    (key : String) : List ConversationInfo :=
  let size := queryValueSize (some itRows) key
  if size < 10 then []
  else if size < MAX_FULL_READ then
    match queryValueFull (some itRows) key with
    | some value => parseChatValueStr p sizeOf value db_str key modified
    | none => []
  else
    [{ id := db_str ++ ":" ++ key
       title := key
       source_db := db_str
       source_key := key
       message_count := 0
       size_bytes := size
       last_modified := modified }]

/-- Section 1 of `extract_from_db`: all aggregate keys, plus the
`processed_keys` entries it creates (every aggregate key of size ≥ 10). -/
def sectionAggregate (p : String → Option Json) (sizeOf : Json → Nat)
    (itRows : List (String × String)) (db_str : String) (modified : Option Int) :
    List ConversationInfo × List String :=
  (CHAT_DATA_KEYS.flatMap (aggKeyRecords p sizeOf itRows db_str modified),
   CHAT_DATA_KEYS.filter (fun key => 10 ≤ queryValueSize (some itRows) key))

/-- Section 2 of `extract_from_db` (lines 498-511): preview scan of the
`ITEM_TABLE_LIKE` patterns, threading the `processed_keys` set. -/
def sectionPatterns (p : String → Option Json) (sizeOf : Json → Nat)
    (itRows : List (String × String)) (db_str : String) (modified : Option Int)
    (processed0 : List String) : List ConversationInfo × List String :=
  ITEM_TABLE_LIKE.foldl
    (fun acc pattern =>
      (scanKeysPreview (some itRows) pattern).foldl
        (fun (acc : List ConversationInfo × List String) entry =>
          if acc.2.contains entry.key || isIgnoredKey entry.key then acc
          else
            let processed := acc.2 ++ [entry.key]
            if 20 < entry.size then
              match extractFromPreview p sizeOf entry db_str modified with
              | some conv => (acc.1 ++ [conv], processed)
              | none => (acc.1, processed)
            else (acc.1, processed))
        acc)
    ([], processed0)

/-- Section 3 of `extract_from_db` (lines 514-537): discovery scan, run
only when sections 1-2 produced nothing. -/
def sectionDiscovery (p : String → Option Json) (sizeOf : Json → Nat)
    (itRows : List (String × String)) (db_str : String) (modified : Option Int)
    (processed0 : List String) : List ConversationInfo :=
  (DISCOVERY_LIKE.foldl
    (fun acc pattern =>
      (scanKeysPreview (some itRows) pattern).foldl
        (fun (acc : List ConversationInfo × List String) entry =>
          if acc.2.contains entry.key || isIgnoredKey entry.key then acc
          else
            let processed := acc.2 ++ [entry.key]
            if 100 < entry.size then
              let fullTried :=
                if entry.size < MAX_FULL_READ && 1000 < entry.size then
                  match queryValueFull (some itRows) entry.key with
                  | some value => parseChatValueStr p sizeOf value db_str entry.key modified
                  | none => []
                else []
              match fullTried with
              | conv :: rest => (acc.1 ++ (conv :: rest), processed)
              | [] =>
                match extractFromPreview p sizeOf entry db_str modified with
                | some conv => (acc.1 ++ [conv], processed)
                | none => (acc.1, processed)
            else (acc.1, processed))
        acc)
    ([], processed0)).1

/-- Embeds `fn extract_from_db` on an open store.  The database path string and
the file's modified time are inputs (the source derives them from the
filesystem). -/
def extractFromDb (p : String → Option Json) (sizeOf : Json → Nat) (s : Store)
    (db_str : String) (modified : Option Int) : List ConversationInfo :=
  let has_disk_kv := s.cursorDiskKV.isSome
  let itemResults :=
    match s.itemTable with
    | some itRows =>
      let r1 := sectionAggregate p sizeOf itRows db_str modified
      let r2 :=
        if has_disk_kv then r1
        else sectionPatterns p sizeOf itRows db_str modified r1.2
      let results := if has_disk_kv then r1.1 else r1.1 ++ r2.1
      if results.isEmpty then
        results ++ sectionDiscovery p sizeOf itRows db_str modified r2.2
      else results
    | none => []
  match s.cursorDiskKV with
  | some kvRows => itemResults ++ extractCursorDiskKv p kvRows db_str modified
  | none => itemResults

-- ── Content reconstruction (fn extract_cursor_composer_content etc.) ──

/-- Embeds `fn extract_message_content` (lines 674-703). -/
def extractMessageContent (val : Json) : String :=
  match val.asStr with
  | some s => s
  | none =>
    match val with
    | .obj _ =>
      match (firstField val ["text", "content", "message", "body", "value"]).bind Json.asStr with
      | some s => s
      | none => ""
    | .arr parts =>
      let texts := parts.filterMap (fun part =>
        match part.asStr with
        | some s => some s
        | none =>
          match (part.get "text").bind Json.asStr with
          | some s => some s
          | none => (part.get "content").bind Json.asStr)
      if texts.isEmpty then "" else String.intercalate "\n" texts
    | _ => ""

/-- Embeds `fn normalize_role` (lines 705-719). -/
def normalizeRole (val : Json) : String :=
  let role_str := ((firstField val ["role", "type", "sender", "author"]).bind
    Json.asStr).getD "unknown"
  let lower : String := ⟨role_str.data.map Char.toLower⟩
  if lower = "user" || lower = "human" then "user"
  else if lower = "assistant" || lower = "ai" || lower = "bot" || lower = "model"
      || lower = "gpt" || lower = "claude" || lower = "gemini" then "assistant"
  else if lower = "system" then "system"
  else role_str

/-- Embeds `fn extract_messages_from_item` (lines 721-770). -/
def extractMessagesFromItem (item : Json) : List ConversationMessage :=
  let msg_array := (firstField item
    ["bubbles", "messages", "conversation", "turns", "exchanges"]).bind Json.asArray
  let messages :=
    match msg_array with
    | some arr =>
      arr.filterMap (fun msg =>
        let role := normalizeRole msg
        let content :=
          ((firstField msg ["text", "content", "message", "body", "value"]).map
            extractMessageContent).getD ""
        if content = "" then none else some { role := role, content := content })
    | none => []
  if messages.isEmpty then
    match (item.get "bubbles").bind Json.asArray with
    | some arr =>
      arr.filterMap (fun bubble =>
        let role := normalizeRole bubble
        let content := ((firstField bubble ["rawText", "displayText"]).bind Json.asStr).getD ""
        if content = "" then none else some { role := role, content := content })
    | none => messages
  else messages

/-- Embeds `fn extract_user_text_from_composer` (lines 1008-1036); the `richText`
field holds serialized JSON, so this also consults the parse oracle. -/
def extractUserTextFromComposer (p : String → Option Json) (parsed : Json) : String :=
  match (parsed.get "text").bind Json.asStr with
  | some text =>
    if text ≠ "" then text else richTextPart p parsed
  | none => richTextPart p parsed
where
  richTextPart (p : String → Option Json) (parsed : Json) : String :=
    match (parsed.get "richText").bind Json.asStr with
    | some rich =>
      match (p rich).bind (fun rt =>
          ((rt.get "root").bind (fun root => root.get "children")).bind Json.asArray) with
      | some children =>
        let parts := children.flatMap (fun child =>
          match (child.get "children").bind Json.asArray with
          | some kids =>
            kids.filterMap (fun kid =>
              match (kid.get "text").bind Json.asStr with
              | some t => if t ≠ "" then some t else none
              | none => none)
          | none => [])
        if parts.isEmpty then "" else String.intercalate "\n" parts
      | none => ""
    | none => ""

/-- The fixed final notice of `extract_cursor_composer_content`. -/
def ENCRYPTION_NOTICE : String :=
  "Note: Full conversation messages are stored in Cursor's encrypted binary format and cannot be displayed. Only metadata is shown above."

/-- Segment (a) of `extract_cursor_composer_content`: the header-count
overview (lines 907-925). -/
def overviewSeg (parsed : Json) : List ConversationMessage :=
  match (parsed.get "fullConversationHeadersOnly").bind Json.asArray with
  | some headers =>
    if headers.isEmpty then []
    else
      let user_count := (headers.filter (fun h => (h.get "type").bind Json.asI64 = some 1)).length
      let assistant_count := (headers.filter (fun h => (h.get "type").bind Json.asI64 = some 2)).length
      let other_count := headers.length - user_count - assistant_count
      let overview := "Conversation: " ++ toString headers.length ++ " messages ("
        ++ toString user_count ++ " user, " ++ toString assistant_count ++ " assistant"
        ++ (if 0 < other_count then ", " ++ toString other_count ++ " other" else "")
        ++ ")"
      [{ role := "system", content := overview }]
  | none => []

/-- Segment (b): the user's last input (lines 928-934). -/
def userSeg (p : String → Option Json) (parsed : Json) : List ConversationMessage :=
  let user_text := extractUserTextFromComposer p parsed
  if user_text = "" then [] else [{ role := "user", content := user_text }]

/-- Segment (c): the subtitle as an assistant summary (lines 937-944). -/
def subtitleSeg (parsed : Json) : List ConversationMessage :=
  match (parsed.get "subtitle").bind Json.asStr with
  | some subtitle =>
    if subtitle = "" then [] else [{ role := "assistant", content := subtitle }]
  | none => []

/-- One rendered checklist line of the todo segment. -/
def todoLine (todo : Json) : String :=
  let label := ((todo.get "label").bind Json.asStr).getD "task"
  let status := ((todo.get "status").bind Json.asStr).getD "unknown"
  let check := if status = "done" then "✓" else "○"
  "  " ++ check ++ " " ++ label ++ "\n"

/-- Segment (d): the todo checklist (lines 947-961). -/
def todoSeg (parsed : Json) : List ConversationMessage :=
  match (parsed.get "todos").bind Json.asArray with
  | some todos =>
    if todos.isEmpty then []
    else
      let todo_text := todos.foldl (fun acc todo => acc ++ todoLine todo) "Tasks:\n"
      [{ role := "assistant", content := todo_text }]
  | none => []

/-- Segment (e): newly created files (lines 964-976). -/
def filesSeg (parsed : Json) : List ConversationMessage :=
  match (parsed.get "newlyCreatedFiles").bind Json.asArray with
  | some files =>
    if files.isEmpty then []
    else
      let file_list := files.filterMap Json.asStr
      if file_list.isEmpty then []
      else [{ role := "system", content := "New files:\n  " ++ String.intercalate "\n  " file_list }]
  | none => []

/-- Segment (f): the status/diff-stat line (lines 979-996). -/
def statusSeg (parsed : Json) : List ConversationMessage :=
  if parsed.isObject = false then [] else
  let status := ((parsed.get "status").bind Json.asStr).getD ""
  let lines_added := ((parsed.get "totalLinesAdded").bind Json.asI64).getD 0
  let lines_removed := ((parsed.get "totalLinesRemoved").bind Json.asI64).getD 0
  let files_changed := ((parsed.get "filesChangedCount").bind Json.asI64).getD 0
  let mode := ((parsed.get "unifiedMode").bind Json.asStr).getD ""
  if status ≠ "" || 0 < lines_added || 0 < files_changed then
    [{ role := "system",
       content := "Status: " ++ status ++ " | Mode: " ++ mode ++ " | Files: "
         ++ toString files_changed ++ " | +" ++ toString lines_added
         ++ " -" ++ toString lines_removed }]
  else []

/-- Embeds `fn extract_cursor_composer_content` (lines 893-1005): the six
conditional metadata segments in source order, then the fixed notice.
(In the source each segment is a conditional `messages.push`; the
sequential pushes are exactly this concatenation.  The segments reading
object fields do so through `Json.get`, which yields `None` on
non-objects just as `obj.and_then(..)` does for `None` objects.) -/
def extractCursorComposerContent (p : String → Option Json) (parsed : Json)
    (source_key : String) : ConversationContent :=
  let title := ((parsed.get "name").bind Json.asStr).getD source_key
  { title := title
    messages :=
      overviewSeg parsed ++ userSeg p parsed ++ subtitleSeg parsed ++ todoSeg parsed
        ++ filesSeg parsed ++ statusSeg parsed
        ++ [{ role := "system", content := ENCRYPTION_NOTICE }] }

/-- Embeds `fn find_conversation_in_aggregated` (lines 772-814). -/
def findConversationInAggregated (parsed : Json) (conversation_id : String) :
    Option Json :=
  let arrays :=
    (["tabs", "allComposers", "conversations", "chats", "history", "data",
      "items", "threads", "sessions"].filterMap
      (fun k => (parsed.get k).bind Json.asArray))
    ++ (match parsed.asArray with | some arr => [arr] | none => [])
  let byIndex :=
    if strStarts conversation_id "item_" then
      match (conversation_id.drop 5).toNat? with
      | some idx => (arrays.find? (fun arr => idx < arr.length)).bind (fun arr => arr.get? idx)
      | none => none
    else none
  match byIndex with
  | some item => some item
  | none =>
    (arrays.flatMap id).find? (fun item => itemIdOfItem item = conversation_id)

-- ── Deletion engine (fn delete_conversation, lines 1040-1076) ──

/-- One `.pb` conversation file of the directory-backed vendor;
`removeErr = some e` models `std::fs::remove_file` failing with `e`. -/
structure PbFile where
  stem : String
  size : Nat
  removeErr : Option String
deriving DecidableEq

/-- The deletion target behind a database path: a directory of `.pb`
files, an openable store, or a store whose open fails. -/
inductive DbTarget where
  | dir (files : List PbFile)
  | store (s : Store)
  | openFail (msg : String)
deriving DecidableEq

/-- Embeds `DELETE FROM [table] WHERE key = ?`: remaining rows and removed count. -/
def deleteFromRows (rows : List (String × String)) (key : String) :
    List (String × String) × Nat :=
  (rows.filter (fun r => r.1 ≠ key), (rows.filter (fun r => r.1 = key)).length)

instance {ε α : Type} [DecidableEq ε] [DecidableEq α] : DecidableEq (Except ε α) := fun a b =>
  match a, b with
  | .ok x, .ok y =>
    if h : x = y then .isTrue (by rw [h]) else .isFalse (by simp [h])
  | .ok _, .error _ => .isFalse (by simp)
  | .error _, .ok _ => .isFalse (by simp)
  | .error e, .error f =>
    if h : e = f then .isTrue (by rw [h]) else .isFalse (by simp [h])

/-- Result of one deletion call: the `Result`, the post-state, and
whether a `VACUUM` compaction pass ran. -/
structure DeleteOutcome where
  result : Except String Nat
  post : DbTarget
  vacuumed : Bool
deriving DecidableEq

/-- Embeds `fn delete_conversation` (lines 1040-1076). -/
def deleteConversation (target : DbTarget) (source_key : String) : DeleteOutcome :=
  match target with
  | .dir files =>
    match files.find? (fun f => f.stem = source_key) with
    | some f =>
      match f.removeErr with
      | none =>
        { result := .ok f.size
          post := .dir (files.filter (fun g => g.stem ≠ source_key))
          vacuumed := false }
      | some e =>
        { result := .error ("Failed to delete .pb file: " ++ e)
          post := .dir files, vacuumed := false }
    | none => { result := .error "File not found", post := .dir files, vacuumed := false }
  | .openFail e =>
    { result := .error ("Failed to open DB: " ++ e), post := .openFail e, vacuumed := false }
  | .store s =>
    let size := max (queryValueSize s.itemTable source_key)
                    (queryValueSize s.cursorDiskKV source_key)
    match s.itemTable with
    | some itRows =>
      let d := deleteFromRows itRows source_key
      if 0 < d.2 then
        { result := .ok size, post := .store { s with itemTable := some d.1 }, vacuumed := true }
      else deleteKV s size
    | none => deleteKV s size
where
  deleteKV (s : Store) (size : Nat) : DeleteOutcome :=
    match s.cursorDiskKV with
    | some kvRows =>
      let d := deleteFromRows kvRows source_key
      if 0 < d.2 then
        { result := .ok size, post := .store { s with cursorDiskKV := some d.1 }, vacuumed := true }
      else
        { result := .error "Conversation key not found", post := .store s, vacuumed := false }
    | none =>
      { result := .error "Conversation key not found", post := .store s, vacuumed := false }

-- ── Batch deletion (fn delete_conversations_batch, lines 1084-1137) ──

/-- Embeds `struct BatchDeleteRequest`. -/
structure BatchDeleteRequest where
  source_db : String
  source_key : String
deriving DecidableEq

/-- What lies behind each database path during a batch; a path not in
the environment models `db_path.exists()` being false. -/
inductive BatchDb where
  | dir (files : List PbFile)
  | store (s : Store)
  | openFail (msg : String)
deriving DecidableEq

abbrev BatchEnv := List (String × BatchDb)

/-- The grouping of requests by database (source line 1089-1092); a
`HashMap` in the source, modelled in first-occurrence order, which the
accumulated totals and error set do not depend on since distinct
databases do not interact. -/
def groupByDb (items : List BatchDeleteRequest) : List (String × List String) :=
  items.foldl
    (fun acc it =>
      if acc.any (fun g => g.1 = it.source_db) then
        acc.map (fun g => if g.1 = it.source_db then (g.1, g.2 ++ [it.source_key]) else g)
      else acc ++ [(it.source_db, [it.source_key])])
    []

/-- Batch deletion of one key against one store (lines 1116-1128):
per-table size read, delete, stop at first table reporting a removal;
absent keys free nothing and record no error. -/
def batchDeleteKeyStore (s : Store) (key : String) : Store × Nat :=
  match s.itemTable with
  | some itRows =>
    let sz := queryValueSize (some itRows) key
    let d := deleteFromRows itRows key
    if 0 < d.2 then ({ s with itemTable := some d.1 }, sz)
    else kvPart s
  | none => kvPart s
where
  kvPart (s : Store) : Store × Nat :=
    match s.cursorDiskKV with
    | some kvRows =>
      let sz := queryValueSize (some kvRows) key
      let d := deleteFromRows kvRows key
      if 0 < d.2 then ({ s with cursorDiskKV := some d.1 }, sz)
      else (s, 0)
    | none => (s, 0)

/-- One directory-group key (lines 1099-1108): missing files are
silently skipped, failed removals record an error. -/
def batchDeleteKeyDir (files : List PbFile) (key : String) :
    List PbFile × Nat × List String :=
  match files.find? (fun f => f.stem = key) with
  | some f =>
    match f.removeErr with
    | none => (files.filter (fun g => g.stem ≠ key), f.size, [])
    | some e => (files, 0, [key ++ ": " ++ e])
  | none => (files, 0, [])

/-- The accumulation loop of `delete_conversations_batch`: total freed
bytes, per-item errors in order, and the final environment. -/
def runBatch (env : BatchEnv) (items : List BatchDeleteRequest) :
    Nat × List String × BatchEnv :=
  (groupByDb items).foldl
    (fun (acc : Nat × List String × BatchEnv) g =>
      let (total, errors, env) := acc
      match env.find? (fun e => e.1 = g.1) with
      | none => (total, errors, env)
      | some (_, .dir files) =>
        let r := g.2.foldl
          (fun (st : List PbFile × Nat × List String) key =>
            let one := batchDeleteKeyDir st.1 key
            (one.1, st.2.1 + one.2.1, st.2.2 ++ one.2.2))
          (files, 0, [])
        (total + r.2.1, errors ++ r.2.2,
         env.map (fun e => if e.1 = g.1 then (e.1, .dir r.1) else e))
      | some (_, .openFail msg) =>
        (total, errors ++ [g.1 ++ ": " ++ msg], env)
      | some (_, .store s) =>
        let r := g.2.foldl
          (fun (st : Store × Nat) key =>
            let one := batchDeleteKeyStore st.1 key
            (one.1, st.2 + one.2))
          (s, 0)
        (total + r.2, errors,
         env.map (fun e => if e.1 = g.1 then (e.1, .store r.1) else e)))
    (0, [], env)

/-- Embeds `fn delete_conversations_batch` (lines 1084-1137). -/
def deleteConversationsBatch (env : BatchEnv) (items : List BatchDeleteRequest) :
    Except String Nat :=
  let r := runBatch env items
  if r.2.1 ≠ [] && r.1 = 0 then .error (String.intercalate "; " r.2.1)
  else .ok r.1

-- ── Final ordering of a scan result (scan_conversations lines 1244-1249) ──

/-- The sort key: `a.last_modified.unwrap_or(0)`. -/
def sortKey (c : ConversationInfo) : Int :=
  c.last_modified.getD 0

/-- The comparator of the final sort as a relation: `a` may precede `b`
when `b`'s key does not exceed `a`'s (descending order). -/
def convGE (a b : ConversationInfo) : Prop :=
  sortKey b ≤ sortKey a

instance : DecidableRel convGE := fun a b =>
  inferInstanceAs (Decidable (sortKey b ≤ sortKey a))

instance : IsTotal ConversationInfo convGE :=
  ⟨fun a b => le_total (sortKey b) (sortKey a)⟩

instance : IsTrans ConversationInfo convGE :=
  ⟨fun _ _ _ hab hbc => le_trans hbc hab⟩

instance : IsRefl ConversationInfo convGE :=
  ⟨fun a => le_refl (sortKey a)⟩

/-- The final `conversations.sort_by(|a, b| tb.cmp(&ta))`: a stable sort
placing larger keys first.  Rust's stable `sort_by` and stable insertion
sort agree on every list for the same total preorder. -/
def sortConversations (l : List ConversationInfo) : List ConversationInfo :=
  List.insertionSort convGE l

-- ── Auxiliary predicates used by the theorems ──

/-- A known table holds a row for the key (so a keyed `DELETE` against
it reports a removed row). -/
def tableHasKey (table : Option (List (String × String))) (key : String) : Bool :=
  match table with
  | some rows => rows.any (fun r => r.1 = key)
  | none => false

/-- Some known table of the store holds the key. -/
def storeHasKey (s : Store) (key : String) : Bool :=
  tableHasKey s.itemTable key || tableHasKey s.cursorDiskKV key

-- ── Shared helper lemmas ──

lemma filter_eq_len_pos_iff_any (rows : List (String × String)) (k : String) :
    0 < (rows.filter (fun r => r.1 = k)).length ↔ rows.any (fun r => r.1 = k) = true := by
  rw [List.length_pos, Ne, List.filter_eq_nil_iff, List.any_eq_true]
  push_neg
  simp only [decide_eq_true_eq]

lemma string_append_len_pos (a b : String) (h : 0 < a.length) : 0 < (a ++ b).length := by
  rw [String.length_append]; omega

lemma string_ne_empty_of_len_pos (s : String) (h : 0 < s.length) : s ≠ "" := by
  intro hc
  rw [hc] at h
  simp [String.length] at h

lemma todo_fold_len_le (todos : List Json) (init : String) :
    init.length ≤ (todos.foldl (fun acc todo => acc ++ todoLine todo) init).length := by
  induction todos generalizing init with
  | nil => simp
  | cons t ts ih =>
    calc init.length ≤ (init ++ todoLine t).length := by
          rw [String.length_append]; omega
      _ ≤ _ := ih (init ++ todoLine t)

-- ── C1 ──

/-- Concrete input for C1: a value carrying both a `tabs` array and an
`allComposers` array, each with one well-formed item. -/
def c1TabItem : Json := .obj [("title", .str "A"), ("messages", .arr [.obj []])]

def c1ComposerItem : Json := .obj [("title", .str "B"), ("messages", .arr [.obj []])]

def c1Value : Json := .obj [("tabs", .arr [c1TabItem]), ("allComposers", .arr [c1ComposerItem])]

/-- C1 counterexample: the claim says the five matchers stop at the first
one yielding ≥ 1 item, so an input whose `tabs` array yields an item
contributes no records from `allComposers`.  On `c1Value` the `tabs`
matcher yields one record, yet `parse_chat_value` also returns the
record of the `allComposers` matcher: matchers 1 and 2 are not guarded
by `results.is_empty()` in the source. -/
theorem C1_counterexample :
    tabsRecords serLen c1Value "db" "key" none
      = [{ id := "db:key:item_0", title := "A", source_db := "db", source_key := "key",
           message_count := 1, size_bytes := 29, last_modified := none }]
    ∧ composersRecords serLen c1Value "db" "key" none
      = [{ id := "db:key:item_0", title := "B", source_db := "db", source_key := "key",
           message_count := 1, size_bytes := 29, last_modified := none }]
    ∧ parseChatValue serLen c1Value "db" "key" none
      = [{ id := "db:key:item_0", title := "A", source_db := "db", source_key := "key",
           message_count := 1, size_bytes := 29, last_modified := none },
         { id := "db:key:item_0", title := "B", source_db := "db", source_key := "key",
           message_count := 1, size_bytes := 29, last_modified := none }] := by
  refine ⟨by decide, by decide, by decide⟩

/-- C1 amended: matchers 3-5 (top-level array, wrapper fields, single
object) each run only when no earlier matcher yielded an item, but
matchers 1 (`tabs`) and 2 (`allComposers`) both always run and both
contribute records: whenever their combined output is non-empty, it is
exactly the parser's result, so an input whose `tabs` array yields items
can still contribute records from its `allComposers` array. -/
theorem C1_amended (sizeOf : Json → Nat) (parsed : Json) (db_path key : String)
    (modified : Option Int)
    (hne : tabsRecords sizeOf parsed db_path key modified
      ++ composersRecords sizeOf parsed db_path key modified ≠ []) :
    parseChatValue sizeOf parsed db_path key modified
      = tabsRecords sizeOf parsed db_path key modified
        ++ composersRecords sizeOf parsed db_path key modified := by
  unfold parseChatValue
  cases h : tabsRecords sizeOf parsed db_path key modified
      ++ composersRecords sizeOf parsed db_path key modified with
  | nil => exact absurd h hne
  | cons a t => rfl

/-- C1 amended-claim witness at `c1Value`. -/
theorem C1_amended_witness :
    parseChatValue serLen c1Value "db" "key" none
      = tabsRecords serLen c1Value "db" "key" none
        ++ composersRecords serLen c1Value "db" "key" none :=
  C1_amended serLen c1Value "db" "key" none (by decide)

-- ── C6 ──

/-- C6: for an object item, the two rejection checks of
`try_parse_conversation_item` amount to: rejected iff the extracted
title is empty and the extracted message count is zero.  The statement
quantifies over the serialized-size function, so the size sub-condition
provably never changes the outcome. -/
theorem C6_rejection_iff (sizeOf : Json → Nat) (item : Json) (db_path key : String)
    (idx : Nat) (modified : Option Int) (h : item.isObject = true) :
    tryParseConversationItem sizeOf item db_path key idx modified = none
      ↔ (titleOfItem item = "" ∧ msgCountOfItem item = 0) := by
  unfold tryParseConversationItem
  rw [h]
  by_cases ht : titleOfItem item = "" <;>
    by_cases hm : msgCountOfItem item = 0 <;>
      by_cases hs : sizeOf item < 50 <;>
        simp [ht, hm, hs]

/-- C6 witness: the empty object is rejected (title empty, count 0). -/
theorem C6_rejection_iff_witness :
    tryParseConversationItem serLen (.obj []) "db" "key" 0 none = none
      ↔ (titleOfItem (.obj []) = "" ∧ msgCountOfItem (.obj []) = 0) :=
  C6_rejection_iff serLen (.obj []) "db" "key" 0 none (by decide)

-- ── C7 ──

/-- The spec-side title extractor for the amended C7, written from the
amended claim's words: for each field name in the stated order, try the
no-space then the with-space form of `"<name>":"`; the first candidate
whose occurrence closes into a valid (non-empty, under-200-character,
escape-aware) span wins. -/
def specTryName (fieldName : String) (text : List Char) : Option (List Char) :=
  match tryTitleAt ("\"" ++ fieldName ++ "\":\"").data text with
  | some s => some s
  | none => tryTitleAt ("\"" ++ fieldName ++ "\": \"").data text

/-- Spec-side extractor with the amended order `chatTitle`, `name`, `title`. -/
def specExtractTitle (text : List Char) : String :=
  match specTryName "chatTitle" text with
  | some s => ⟨s⟩
  | none =>
    match specTryName "name" text with
    | some s => ⟨s⟩
    | none =>
      match specTryName "title" text with
      | some s => ⟨s⟩
      | none => ""

/-- C7 counterexample: the claim states the prefix order `chatTitle`,
`title`, `name`; the source tries `name` before `title`, so a text
containing both yields the `name` value, not the `title` value. -/
theorem C7_counterexample :
    extractTitleFromText "\x7b\"title\":\"A\",\"name\":\"B\"\x7d".data = "B"
    ∧ extractTitleFromText "\x7b\"title\":\"A\",\"name\":\"B\"\x7d".data ≠ "A" := by
  refine ⟨by decide, by decide⟩

/-- C7 amended: the title is found at the first literal occurrence of
the title-bearing substrings in the order `chatTitle`, `name`, `title`
(each tolerating an optional space after the colon), extracting spans of
fewer than 200 characters with backslash-escaped quotes as
non-terminators; and the message-count approximation is the maximum of
the `"role"` and `"type":"user"` occurrence counts. -/
theorem C7_amended (text : List Char) :
    extractTitleFromText text = specExtractTitle text
    ∧ countMessagesFromText text
      = max (countMatches "\"role\"".data text) (countMatches "\"type\":\"user\"".data text) := by
  constructor
  · have e1 : ("\"" ++ "chatTitle" ++ "\":\"") = "\"chatTitle\":\"" := by decide
    have e2 : ("\"" ++ "chatTitle" ++ "\": \"") = "\"chatTitle\": \"" := by decide
    have e3 : ("\"" ++ "name" ++ "\":\"") = "\"name\":\"" := by decide
    have e4 : ("\"" ++ "name" ++ "\": \"") = "\"name\": \"" := by decide
    have e5 : ("\"" ++ "title" ++ "\":\"") = "\"title\":\"" := by decide
    have e6 : ("\"" ++ "title" ++ "\": \"") = "\"title\": \"" := by decide
    unfold extractTitleFromText specExtractTitle specTryName
    rw [e1, e2, e3, e4, e5, e6]
    simp only [TITLE_PATTERNS, extractTitleFromText.go]
    cases tryTitleAt "\"chatTitle\":\"".data text <;>
      cases tryTitleAt "\"chatTitle\": \"".data text <;>
        cases tryTitleAt "\"name\":\"".data text <;>
          cases tryTitleAt "\"name\": \"".data text <;>
            cases tryTitleAt "\"title\":\"".data text <;>
              cases tryTitleAt "\"title\": \"".data text <;>
                simp
  · rfl

-- ── C2 ──

lemma qvs_zero_of_not_has (t : Option (List (String × String))) (k : String)
    (h : tableHasKey t k = false) : queryValueSize t k = 0 := by
  cases t with
  | none => rfl
  | some rows =>
    have hh : rows.any (fun r => r.1 = k) = false := by
      simpa [tableHasKey] using h
    have h' : ∀ x ∈ rows, ¬ (x.1 = k) := by
      intro x hx heq
      have hth : rows.any (fun r => r.1 = k) = true :=
        List.any_eq_true.mpr ⟨x, hx, by simp [heq]⟩
      rw [hh] at hth
      exact Bool.false_ne_true hth
    simp only [queryValueSize]
    rw [List.find?_eq_none.mpr]
    · rfl
    · intro x hx
      simpa using h' x hx

lemma filter_eq_len_zero_of_not_any (rows : List (String × String)) (k : String)
    (h : rows.any (fun r => r.1 = k) = false) :
    ¬ 0 < (rows.filter (fun r => r.1 = k)).length := by
  rw [filter_eq_len_pos_iff_any, h]
  simp

/-- Branch lemma: `delete_conversation` when `ItemTable` exists and
holds the key — the `DELETE` there reports a removed row. -/
lemma delete_store_it_hit (itRows : List (String × String))
    (kv : Option (List (String × String))) (k : String)
    (hIT : itRows.any (fun r => r.1 = k) = true) :
    deleteConversation (.store ⟨some itRows, kv⟩) k
      = { result := .ok (max (queryValueSize (some itRows) k) (queryValueSize kv k)),
          post := .store ⟨some (itRows.filter (fun r => r.1 ≠ k)), kv⟩,
          vacuumed := true } := by
  have hcnt : 0 < (deleteFromRows itRows k).2 :=
    (filter_eq_len_pos_iff_any itRows k).mpr hIT
  simp only [deleteConversation]
  rw [if_pos hcnt]
  simp [deleteFromRows]

/-- Branch lemma: `delete_conversation` when `ItemTable` exists but
lacks the key — flow falls through to the `cursorDiskKV` attempt. -/
lemma delete_store_it_miss (itRows : List (String × String))
    (kv : Option (List (String × String))) (k : String)
    (hIT : itRows.any (fun r => r.1 = k) = false) :
    deleteConversation (.store ⟨some itRows, kv⟩) k
      = deleteConversation.deleteKV k ⟨some itRows, kv⟩
          (max (queryValueSize (some itRows) k) (queryValueSize kv k)) := by
  have hcnt : ¬ 0 < (deleteFromRows itRows k).2 :=
    filter_eq_len_zero_of_not_any itRows k hIT
  simp only [deleteConversation]
  rw [if_neg hcnt]

lemma delete_store_it_none (kv : Option (List (String × String))) (k : String) :
    deleteConversation (.store ⟨none, kv⟩) k
      = deleteConversation.deleteKV k ⟨none, kv⟩
          (max (queryValueSize none k) (queryValueSize kv k)) := rfl

lemma deleteKV_hit (k : String) (it : Option (List (String × String)))
    (kvRows : List (String × String)) (size : Nat)
    (h : kvRows.any (fun r => r.1 = k) = true) :
    deleteConversation.deleteKV k ⟨it, some kvRows⟩ size
      = { result := .ok size,
          post := .store ⟨it, some (kvRows.filter (fun r => r.1 ≠ k))⟩,
          vacuumed := true } := by
  have hcnt : 0 < (deleteFromRows kvRows k).2 :=
    (filter_eq_len_pos_iff_any kvRows k).mpr h
  simp only [deleteConversation.deleteKV]
  rw [if_pos hcnt]
  simp [deleteFromRows]

lemma deleteKV_miss (k : String) (it : Option (List (String × String)))
    (kvRows : List (String × String)) (size : Nat)
    (h : kvRows.any (fun r => r.1 = k) = false) :
    deleteConversation.deleteKV k ⟨it, some kvRows⟩ size
      = { result := .error "Conversation key not found",
          post := .store ⟨it, some kvRows⟩, vacuumed := false } := by
  have hcnt : ¬ 0 < (deleteFromRows kvRows k).2 :=
    filter_eq_len_zero_of_not_any kvRows k h
  simp only [deleteConversation.deleteKV]
  rw [if_neg hcnt]

lemma deleteKV_none (k : String) (it : Option (List (String × String))) (size : Nat) :
    deleteConversation.deleteKV k ⟨it, none⟩ size
      = { result := .error "Conversation key not found",
          post := .store ⟨it, none⟩, vacuumed := false } := rfl

/-- When both sizes come from somewhere, their max is the size of a row
of a table that actually holds the key. -/
lemma max_qvs_pick (it kv : Option (List (String × String))) (k : String)
    (hIT : tableHasKey it k = true) :
    (tableHasKey it k = true
      ∧ max (queryValueSize it k) (queryValueSize kv k) = queryValueSize it k)
    ∨ (tableHasKey kv k = true
      ∧ max (queryValueSize it k) (queryValueSize kv k) = queryValueSize kv k) := by
  by_cases hkv : tableHasKey kv k = true
  · rcases le_total (queryValueSize kv k) (queryValueSize it k) with hle | hle
    · exact Or.inl ⟨hIT, Nat.max_eq_left hle⟩
    · exact Or.inr ⟨hkv, Nat.max_eq_right hle⟩
  · have h0 : queryValueSize kv k = 0 :=
      qvs_zero_of_not_has kv k (Bool.eq_false_iff.mpr hkv)
    exact Or.inl ⟨hIT, by rw [h0]; exact Nat.max_eq_left (Nat.zero_le _)⟩

/-- C2: against a store-backed target, single deletion fails with
NotFound exactly when no known table holds the key; when some table
holds it, it succeeds returning the pre-delete size of a row of a table
that contains the key, and the compaction (`VACUUM`) pass runs. -/
theorem C2_store_delete (s : Store) (k : String) :
    ((deleteConversation (.store s) k).result = .error "Conversation key not found"
      ↔ storeHasKey s k = false)
    ∧ (storeHasKey s k = true →
        ∃ n, (deleteConversation (.store s) k).result = .ok n
          ∧ ((tableHasKey s.itemTable k = true ∧ n = queryValueSize s.itemTable k)
            ∨ (tableHasKey s.cursorDiskKV k = true ∧ n = queryValueSize s.cursorDiskKV k))
          ∧ (deleteConversation (.store s) k).vacuumed = true) := by
  obtain ⟨it, kv⟩ := s
  cases it with
  | some itRows =>
    by_cases hIT : itRows.any (fun r => r.1 = k) = true
    · rw [delete_store_it_hit itRows kv k hIT]
      constructor
      · simp [storeHasKey, tableHasKey, hIT]
      · intro _
        exact ⟨_, rfl, max_qvs_pick (some itRows) kv k hIT, rfl⟩
    · have hIT' : itRows.any (fun r => r.1 = k) = false := Bool.eq_false_iff.mpr hIT
      rw [delete_store_it_miss itRows kv k hIT']
      cases kv with
      | some kvRows =>
        by_cases hKV : kvRows.any (fun r => r.1 = k) = true
        · rw [deleteKV_hit k (some itRows) kvRows _ hKV]
          constructor
          · simp [storeHasKey, tableHasKey, hIT', hKV]
          · intro _
            refine ⟨_, rfl, Or.inr ⟨hKV, ?_⟩, rfl⟩
            have h0 : queryValueSize (some itRows) k = 0 :=
              qvs_zero_of_not_has (some itRows) k hIT'
            rw [h0]
            exact Nat.max_eq_right (Nat.zero_le _)
        · have hKV' : kvRows.any (fun r => r.1 = k) = false := Bool.eq_false_iff.mpr hKV
          rw [deleteKV_miss k (some itRows) kvRows _ hKV']
          constructor
          · simp [storeHasKey, tableHasKey, hIT', hKV']
          · intro hcontra
            simp [storeHasKey, tableHasKey, hIT', hKV'] at hcontra
      | none =>
        rw [deleteKV_none k (some itRows) _]
        constructor
        · simp [storeHasKey, tableHasKey, hIT']
        · intro hcontra
          simp [storeHasKey, tableHasKey, hIT'] at hcontra
  | none =>
    rw [delete_store_it_none kv k]
    cases kv with
    | some kvRows =>
      by_cases hKV : kvRows.any (fun r => r.1 = k) = true
      · rw [deleteKV_hit k none kvRows _ hKV]
        constructor
        · simp [storeHasKey, tableHasKey, hKV]
        · intro _
          refine ⟨_, rfl, Or.inr ⟨hKV, ?_⟩, rfl⟩
          show max (queryValueSize none k) _ = _
          exact Nat.max_eq_right (Nat.zero_le _)
      · have hKV' : kvRows.any (fun r => r.1 = k) = false := Bool.eq_false_iff.mpr hKV
        rw [deleteKV_miss k none kvRows _ hKV']
        constructor
        · simp [storeHasKey, tableHasKey, hKV']
        · intro hcontra
          simp [storeHasKey, tableHasKey, hKV'] at hcontra
    | none =>
      rw [deleteKV_none k none _]
      constructor
      · simp [storeHasKey, tableHasKey]
      · intro hcontra
        simp [storeHasKey, tableHasKey] at hcontra

/-- C2 witness: a store whose flat table holds `k` (5 bytes) and whose
composite table holds `k` (10 bytes). -/
def c2Store : Store :=
  { itemTable := some [("k", "12345")], cursorDiskKV := some [("k", "1234567890")] }

theorem C2_store_delete_witness :
    ((deleteConversation (.store c2Store) "k").result = .error "Conversation key not found"
      ↔ storeHasKey c2Store "k" = false)
    ∧ (storeHasKey c2Store "k" = true →
        ∃ n, (deleteConversation (.store c2Store) "k").result = .ok n
          ∧ ((tableHasKey c2Store.itemTable "k" = true ∧ n = queryValueSize c2Store.itemTable "k")
            ∨ (tableHasKey c2Store.cursorDiskKV "k" = true
                ∧ n = queryValueSize c2Store.cursorDiskKV "k"))
          ∧ (deleteConversation (.store c2Store) "k").vacuumed = true) :=
  C2_store_delete c2Store "k"

-- ── C3 ──

/-- C3: batch deletion succeeds with the accumulated total whenever any
bytes were freed; it fails — with the `"; "`-concatenation of the
recorded per-item errors — exactly when the total freed is zero and at
least one per-item error was recorded. -/
theorem C3_batch_result (env : BatchEnv) (items : List BatchDeleteRequest) :
    (0 < (runBatch env items).1 →
      deleteConversationsBatch env items = .ok (runBatch env items).1)
    ∧ ((∃ msg, deleteConversationsBatch env items = .error msg)
        ↔ ((runBatch env items).1 = 0 ∧ (runBatch env items).2.1 ≠ []))
    ∧ (((runBatch env items).1 = 0 ∧ (runBatch env items).2.1 ≠ []) →
        deleteConversationsBatch env items
          = .error (String.intercalate "; " (runBatch env items).2.1)) := by
  have hdef : deleteConversationsBatch env items
      = (if (runBatch env items).2.1 ≠ [] && (runBatch env items).1 = 0
         then .error (String.intercalate "; " (runBatch env items).2.1)
         else .ok (runBatch env items).1) := rfl
  by_cases he : (runBatch env items).2.1 = [] <;>
    by_cases ht : (runBatch env items).1 = 0 <;>
      simp [hdef, he, ht]

/-- C3 witness environment: one store with one present key, one database
whose open fails. -/
def c3Env : BatchEnv :=
  [("d1", .store { itemTable := some [("a", "xxxx")], cursorDiskKV := none }),
   ("d2", .openFail "boom")]

def c3Items : List BatchDeleteRequest :=
  [{ source_db := "d1", source_key := "a" }, { source_db := "d2", source_key := "b" }]

theorem C3_batch_result_witness :
    (0 < (runBatch c3Env c3Items).1 →
      deleteConversationsBatch c3Env c3Items = .ok (runBatch c3Env c3Items).1)
    ∧ ((∃ msg, deleteConversationsBatch c3Env c3Items = .error msg)
        ↔ ((runBatch c3Env c3Items).1 = 0 ∧ (runBatch c3Env c3Items).2.1 ≠ []))
    ∧ (((runBatch c3Env c3Items).1 = 0 ∧ (runBatch c3Env c3Items).2.1 ≠ []) →
        deleteConversationsBatch c3Env c3Items
          = .error (String.intercalate "; " (runBatch c3Env c3Items).2.1)) :=
  C3_batch_result c3Env c3Items

-- ── C10 ──

/-- C10: when the key sits in both known tables, single deletion stops
at the `ItemTable` row (the `cursorDiskKV` rows are untouched in the
post-state), yet the reported freed bytes are the max of the two rows'
sizes rather than the size of the row actually removed. -/
theorem C10_both_tables (s : Store) (k : String)
    (itRows kvRows : List (String × String))
    (hIT : s.itemTable = some itRows) (hKV : s.cursorDiskKV = some kvRows)
    (hkIT : itRows.any (fun r => r.1 = k) = true)
    (hkKV : kvRows.any (fun r => r.1 = k) = true) :
    (deleteConversation (.store s) k).result
      = .ok (max (queryValueSize s.itemTable k) (queryValueSize s.cursorDiskKV k))
    ∧ (deleteConversation (.store s) k).post
      = .store { itemTable := some (itRows.filter (fun r => r.1 ≠ k)),
                 cursorDiskKV := some kvRows }
    ∧ (deleteConversation (.store s) k).vacuumed = true := by
  obtain ⟨it, kv⟩ := s
  simp only at hIT hKV
  subst hIT hKV
  rw [delete_store_it_hit itRows (some kvRows) k hkIT]
  exact ⟨rfl, rfl, rfl⟩

/-- C10 witness: `c2Store` holds `"k"` in both tables (5 and 10 bytes);
deletion removes only the flat row and reports 10 freed bytes. -/
theorem C10_both_tables_witness :
    (deleteConversation (.store c2Store) "k").result
      = .ok (max (queryValueSize c2Store.itemTable "k") (queryValueSize c2Store.cursorDiskKV "k"))
    ∧ (deleteConversation (.store c2Store) "k").post
      = .store { itemTable := some ([("k", "12345")].filter (fun r => r.1 ≠ "k")),
                 cursorDiskKV := some [("k", "1234567890")] }
    ∧ (deleteConversation (.store c2Store) "k").vacuumed = true :=
  C10_both_tables c2Store "k" [("k", "12345")] [("k", "1234567890")]
    rfl rfl (by decide) (by decide)

-- ── C4 ──

/-- C4: for an aggregate chat-data key whose stored value has size at
least 10, the extractor fetches and parses the full value when the size
is under the 50 MB ceiling, and otherwise emits exactly one stub record
with title = key, message count 0 and the value's stored length as its
size. -/
theorem C4_aggregate_size_gate (p : String → Option Json) (sizeOf : Json → Nat)
    (itRows : List (String × String)) (db_str : String) (modified : Option Int)
    (key : String) (hk : key ∈ CHAT_DATA_KEYS)
    (h10 : 10 ≤ queryValueSize (some itRows) key) :
    (queryValueSize (some itRows) key < MAX_FULL_READ →
      ∃ v, queryValueFull (some itRows) key = some v
        ∧ aggKeyRecords p sizeOf itRows db_str modified key
          = parseChatValueStr p sizeOf v db_str key modified)
    ∧ (MAX_FULL_READ ≤ queryValueSize (some itRows) key →
      aggKeyRecords p sizeOf itRows db_str modified key
        = [{ id := db_str ++ ":" ++ key, title := key, source_db := db_str,
             source_key := key, message_count := 0,
             size_bytes := queryValueSize (some itRows) key,
             last_modified := modified }]) := by
  have hfind : ∃ r, itRows.find? (fun q => q.1 = key) = some r := by
    cases hf : itRows.find? (fun q => q.1 = key) with
    | some r => exact ⟨r, rfl⟩
    | none =>
      exfalso
      have : queryValueSize (some itRows) key = 0 := by
        simp [queryValueSize, hf]
      omega
  obtain ⟨r, hr⟩ := hfind
  have hnot10 : ¬ queryValueSize (some itRows) key < 10 := by omega
  constructor
  · intro hlt
    refine ⟨r.2, ?_, ?_⟩
    · simp [queryValueFull, hr]
    · unfold aggKeyRecords
      rw [if_neg hnot10, if_pos hlt]
      simp [queryValueFull, hr]
  · intro hge
    have hnotlt : ¬ queryValueSize (some itRows) key < MAX_FULL_READ := by omega
    unfold aggKeyRecords
    rw [if_neg hnot10, if_neg hnotlt]

/-- C4 witness rows: one aggregate key with a small parseable value. -/
def c4Rows : List (String × String) :=
  [("chat.data", "\x7b\"tabs\":[\x7b\"title\":\"T\",\"messages\":[\x7b\x7d]\x7d]\x7d")]

theorem C4_aggregate_size_gate_witness :
    (queryValueSize (some c4Rows) "chat.data" < MAX_FULL_READ →
      ∃ v, queryValueFull (some c4Rows) "chat.data" = some v
        ∧ aggKeyRecords (fun _ => none) serLen c4Rows "db" none "chat.data"
          = parseChatValueStr (fun _ => none) serLen v "db" "chat.data" none)
    ∧ (MAX_FULL_READ ≤ queryValueSize (some c4Rows) "chat.data" →
      aggKeyRecords (fun _ => none) serLen c4Rows "db" none "chat.data"
        = [{ id := "db" ++ ":" ++ "chat.data", title := "chat.data", source_db := "db",
             source_key := "chat.data", message_count := 0,
             size_bytes := queryValueSize (some c4Rows) "chat.data",
             last_modified := none }]) :=
  C4_aggregate_size_gate (fun _ => none) serLen c4Rows "db" none "chat.data"
    (by decide) (by decide)

-- ── C5 ──

lemma overviewSeg_content (parsed : Json) : ∀ m ∈ overviewSeg parsed, m.content ≠ "" := by
  intro m hm
  unfold overviewSeg at hm
  split at hm
  · split at hm
    · simp at hm
    · simp only [List.mem_singleton] at hm
      subst hm
      apply string_ne_empty_of_len_pos
      repeat apply string_append_len_pos
      decide
  · simp at hm

lemma userSeg_content (p : String → Option Json) (parsed : Json) :
    ∀ m ∈ userSeg p parsed, m.content ≠ "" := by
  intro m hm
  unfold userSeg at hm
  by_cases h : extractUserTextFromComposer p parsed = ""
  · simp [h] at hm
  · rw [if_neg h] at hm
    rw [List.mem_singleton] at hm
    subst hm
    exact h

lemma subtitleSeg_content (parsed : Json) : ∀ m ∈ subtitleSeg parsed, m.content ≠ "" := by
  intro m hm
  unfold subtitleSeg at hm
  split at hm
  · split at hm
    · simp at hm
    · rename_i hs
      rw [List.mem_singleton] at hm
      subst hm
      exact hs
  · simp at hm

lemma todoSeg_content (parsed : Json) : ∀ m ∈ todoSeg parsed, m.content ≠ "" := by
  intro m hm
  unfold todoSeg at hm
  split at hm
  · rename_i todos heq
    split at hm
    · simp at hm
    · simp only [List.mem_singleton] at hm
      subst hm
      apply string_ne_empty_of_len_pos
      have h1 := todo_fold_len_le todos "Tasks:\n"
      have h2 : 0 < ("Tasks:\n" : String).length := by decide
      exact lt_of_lt_of_le h2 h1
  · simp at hm

lemma filesSeg_content (parsed : Json) : ∀ m ∈ filesSeg parsed, m.content ≠ "" := by
  intro m hm
  unfold filesSeg at hm
  split at hm
  · split at hm
    · simp at hm
    · simp only [] at hm
      split at hm
      · simp at hm
      · simp only [List.mem_singleton] at hm
        subst hm
        apply string_ne_empty_of_len_pos
        apply string_append_len_pos
        decide
  · simp at hm

lemma statusSeg_content (parsed : Json) : ∀ m ∈ statusSeg parsed, m.content ≠ "" := by
  intro m hm
  unfold statusSeg at hm
  by_cases ho : parsed.isObject = false
  · rw [if_pos ho] at hm; simp at hm
  · rw [if_neg ho] at hm
    simp only [] at hm
    split at hm
    · rw [List.mem_singleton] at hm
      subst hm
      apply string_ne_empty_of_len_pos
      repeat apply string_append_len_pos
      decide
    · simp at hm

/-- C5: composer reconstruction always yields a non-empty transcript
whose final message is the fixed system-role encryption notice, and
every emitted message (the optional metadata segments included) has
non-empty content — each optional segment appears only when non-empty. -/
theorem C5_composer_notice (p : String → Option Json) (parsed : Json) (key : String) :
    (extractCursorComposerContent p parsed key).messages ≠ []
    ∧ (extractCursorComposerContent p parsed key).messages.getLast?
        = some { role := "system", content := ENCRYPTION_NOTICE }
    ∧ ∀ m ∈ (extractCursorComposerContent p parsed key).messages, m.content ≠ "" := by
  have hmsgs : (extractCursorComposerContent p parsed key).messages
      = overviewSeg parsed ++ userSeg p parsed ++ subtitleSeg parsed ++ todoSeg parsed
        ++ filesSeg parsed ++ statusSeg parsed
        ++ [{ role := "system", content := ENCRYPTION_NOTICE }] := rfl
  refine ⟨?_, ?_, ?_⟩
  · rw [hmsgs]; simp
  · rw [hmsgs]
    exact List.getLast?_concat _
  · rw [hmsgs]
    intro m hm
    simp only [List.mem_append] at hm
    rcases hm with ((((((h | h) | h) | h) | h) | h) | h)
    · exact overviewSeg_content parsed m h
    · exact userSeg_content p parsed m h
    · exact subtitleSeg_content parsed m h
    · exact todoSeg_content parsed m h
    · exact filesSeg_content parsed m h
    · exact statusSeg_content parsed m h
    · rw [List.mem_singleton] at h
      subst h
      decide

/-- C5 witness at a concrete input (the null value with a blind parse
oracle: only the notice is emitted). -/
theorem C5_composer_notice_witness :
    (extractCursorComposerContent (fun _ => none) .null "K").messages ≠ []
    ∧ (extractCursorComposerContent (fun _ => none) .null "K").messages.getLast?
        = some { role := "system", content := ENCRYPTION_NOTICE }
    ∧ ∀ m ∈ (extractCursorComposerContent (fun _ => none) .null "K").messages,
        m.content ≠ "" :=
  C5_composer_notice (fun _ => none) .null "K"

-- ── C8 ──

/-- C8 concrete scan: an aggregate value whose record keeps the file's
(absent) modified time, plus a composer row whose `createdAt` of
`-1000` ms yields a present modified time of `-1` s. -/
def c8TabsValue : String :=
  "\x7b\"tabs\":[\x7b\"title\":\"T\",\"messages\":[\x7b\x7d]\x7d]\x7d"

def c8TabsJson : Json :=
  .obj [("tabs", .arr [.obj [("title", .str "T"), ("messages", .arr [.obj []])]])]

def c8ComposerValue : String :=
  "\x7b\"composerId\":\"abc\",\"name\":\"Fix bug\",\"createdAt\":-1000,\"padpadpadpadpadpad\":1\x7d"

def c8ComposerJson : Json :=
  .obj [("composerId", .str "abc"), ("name", .str "Fix bug"),
        ("createdAt", .num (-1000)), ("padpadpadpadpadpad", .num 1)]

def c8Parse : String → Option Json := fun s =>
  if s = c8TabsValue then some c8TabsJson
  else if s = c8ComposerValue then some c8ComposerJson
  else none

def c8Store : Store :=
  { itemTable := some [("chat.data", c8TabsValue)],
    cursorDiskKV := some [("composerData:abc", c8ComposerValue)] }

/-- C8 counterexample: the claim says every conversation with a missing
modified time sorts after every conversation that has one.  In this
modelled scan the final sorted list places the record with a missing
modified time (key treated as 0) before a record carrying the present
modified time `-1`. -/
theorem C8_counterexample :
    (sortConversations (extractFromDb c8Parse serLen c8Store "db" none)).map
        ConversationInfo.last_modified
      = [none, some (-1)] := by
  decide

/-- C8 amended: the final list is a permutation of the records sorted by
descending `last_modified.unwrap_or(0)` key; a record with a missing
modified time therefore sorts after every record whose modified time is
positive, but not necessarily after one whose time is zero or negative. -/
theorem C8_amended (l : List ConversationInfo) :
    (sortConversations l).Perm l
    ∧ List.Sorted convGE (sortConversations l)
    ∧ ∀ i j : Fin (sortConversations l).length,
        ((sortConversations l).get i).last_modified = none →
        0 < sortKey ((sortConversations l).get j) →
        (j : Nat) < (i : Nat) := by
  have hsorted : List.Sorted convGE (sortConversations l) :=
    List.sorted_insertionSort convGE l
  refine ⟨List.perm_insertionSort convGE l, hsorted, ?_⟩
  intro i j hmiss hpos
  by_contra hnot
  push_neg at hnot
  have hij : i ≤ j := Fin.le_def.mpr hnot
  have hrel := hsorted.rel_get_of_le hij
  unfold convGE at hrel
  have hz : sortKey ((sortConversations l).get i) = 0 := by
    unfold sortKey
    rw [hmiss]
    rfl
  rw [hz] at hrel
  omega

/-- C8 amended-claim witness on a concrete two-record list. -/
def c8A : ConversationInfo :=
  { id := "a", title := "a", source_db := "d", source_key := "a",
    message_count := 0, size_bytes := 1, last_modified := none }

def c8B : ConversationInfo :=
  { id := "b", title := "b", source_db := "d", source_key := "b",
    message_count := 0, size_bytes := 1, last_modified := some 5 }

theorem C8_amended_witness :
    (sortConversations [c8A, c8B]).Perm [c8A, c8B]
    ∧ List.Sorted convGE (sortConversations [c8A, c8B])
    ∧ ∀ i j : Fin (sortConversations [c8A, c8B]).length,
        ((sortConversations [c8A, c8B]).get i).last_modified = none →
        0 < sortKey ((sortConversations [c8A, c8B]).get j) →
        (j : Nat) < (i : Nat) :=
  C8_amended [c8A, c8B]

-- ── C9 ──

/-- C9 failing input: one aggregate value whose `tabs` and
`allComposers` arrays each hold one id-less item, so both records fall
back to the positional discriminator `item_0`. -/
def c9Value : String :=
  "\x7b\"tabs\":[\x7b\"title\":\"A\",\"messages\":[\x7b\x7d]\x7d],\"allComposers\":[\x7b\"title\":\"B\",\"messages\":[\x7b\x7d]\x7d]\x7d"

def c9Json : Json :=
  .obj [("tabs", .arr [.obj [("title", .str "A"), ("messages", .arr [.obj []])]]),
        ("allComposers", .arr [.obj [("title", .str "B"), ("messages", .arr [.obj []])]])]

def c9Parse : String → Option Json := fun s => if s = c9Value then some c9Json else none

def c9Store : Store :=
  { itemTable := some [("chat.data", c9Value)], cursorDiskKV := none }

/-- C9: on the failing store the scan's extraction yields two distinct
conversation records (titles "A" and "B") carrying the same identity
string `db:chat.data:item_0`, violating the identity-uniqueness
invariant the spec states for one scan result.  (The size ≥ 0 half of
the claim is trivially maintained: sizes are unsigned.) -/
theorem C9_identity_collision :
    (extractFromDb c9Parse serLen c9Store "db" none).map ConversationInfo.id
      = ["db:chat.data:item_0", "db:chat.data:item_0"]
    ∧ (extractFromDb c9Parse serLen c9Store "db" none).map ConversationInfo.title
      = ["A", "B"] := by
  refine ⟨by decide, by decide⟩

end DevCleaner
